import Mathlib

/-!
# Verification of the synaTudor libfprint-tod session lifecycle (src/libfprint-tod/src/open.c)

This file gives a shallow embedding of the session lifecycle state machine of
`open.c`: the device state (`FpiDeviceTudor`), the disposal routine
(`dispose_dev`), the host-exit callback (`host_exit_cb`), the open receive
callback (`open_recv_cb`), the public entry points (`fpi_device_tudor_open`,
`fpi_device_tudor_close`) and the shutdown timeout (`close_timeout_cb`).

Each C function becomes a pure state transformer that also emits an ordered
list of externally observable `Event`s (kill requests, object unrefs, USB
open/close, fd dup/close, IPC sends, operation completions).  External
collaborators (`g_bus_get_sync`, `start_host_process`, `g_socket_new_from_fd`,
`send_ipc_msg`) live outside `src/`; their success or failure is supplied as
an environment (`OpenEnv` / the `send_ok` flag), and their documented side
effects on the device record are modelled from the spec where noted.

Asynchronous deliveries (receive completion, host exit, timeout) are modelled
by an `DevAction` type and a `run` function folding `step` over a list of
delivered actions, accumulating the event trace.
-/

/-- Message tags of the handshake protocol (`enum ipc_msg_type` members used
by `open.c`); `other` stands for any further well-formed tag. -/
inductive MsgType where
  | init
  | ready
  | shutdown
  | other (tag : Nat)
deriving DecidableEq, Repr

/-- Error classes surfaced by the lifecycle code (`GError` domains/kinds as
they matter to `open.c`): DBus connection failure, launcher failure,
transport send/receive failure, protocol violation, cancelled receive. -/
inductive ErrKind where
  | dbusErr
  | launchErr
  | transportErr
  | protoErr
  | cancelledErr
deriving DecidableEq, Repr

/-- Externally observable side effects of the lifecycle code, in program
order.  `disposed` marks the end of one run of `dispose_dev` (the
"Disposed tudor device resources" debug line); `unref…` events are emitted
only when `g_clear_object` actually releases a non-NULL reference. -/
inductive Event where
  | killHost (id : Nat)
  | unrefIpcCancel
  | unrefIpcSocket
  | unrefDbusCon
  | disposed
  | cancelIpc (id : Nat)
  | usbOpen
  | usbClose
  | dupFd
  | closeFd
  | sendMsg (t : MsgType)
  | consumeMsg (t : MsgType)
  | recvStart
  | armTimeout
  | openComplete (err : Option ErrKind)
  | closeComplete (err : Option ErrKind)
deriving DecidableEq, Repr

/-- The device record (`FpiDeviceTudor`), restricted to the fields `open.c`
reads or writes.  Object reference fields (`ipc_cancel`, `ipc_socket`,
`dbus_con`) are modelled as presence flags (`true` = non-NULL).
`recv_pending` is not a C struct field: it models whether a `recv_ipc_msg`
receive is outstanding, so that its completion callback fires at most once
per issued receive (the Transport contract: one outstanding receive). -/
structure FpiDeviceTudor where
  host_has_id : Bool
  host_id : Nat
  host_dead : Bool
  in_shutdown : Bool
  ipc_cancel : Bool
  ipc_socket : Bool
  dbus_con : Bool
  recv_pending : Bool
deriving DecidableEq, Repr

/-- `dispose_dev`: best-effort kill of the host process when a host id is
registered, release of the three owned references (a `g_clear_object` on an
already-NULL field is a no-op and emits nothing), and clearing of
`in_shutdown`.  `host_has_id` is NOT cleared by the C code. -/
def dispose_dev (tdev : FpiDeviceTudor) : FpiDeviceTudor × List Event :=
  ({ tdev with ipc_cancel := false, ipc_socket := false, dbus_con := false,
               in_shutdown := false },
   (if tdev.host_has_id then [Event.killHost tdev.host_id] else [])
     ++ (if tdev.ipc_cancel then [Event.unrefIpcCancel] else [])
     ++ (if tdev.ipc_socket then [Event.unrefIpcSocket] else [])
     ++ (if tdev.dbus_con then [Event.unrefDbusCon] else [])
     ++ [Event.disposed])

/-- `host_exit_cb`: ignore the notification if the host is already marked
dead or the id does not match; otherwise mark the host dead, cancel the IPC
cancellable if present, and - only when `in_shutdown` - dispose, reopen the
USB device and complete `close()` with success.  The exit `status` is only
logged by the C code. -/
def host_exit_cb (tdev : FpiDeviceTudor) (host_id : Nat) (_status : Int) :
    FpiDeviceTudor × List Event :=
  if tdev.host_dead || tdev.host_id != host_id then (tdev, [])
  else
    let tdev := { tdev with host_dead := true }
    let cancelEvs :=
      if tdev.ipc_cancel then [Event.cancelIpc tdev.host_id] else []
    if tdev.in_shutdown then
      let r := dispose_dev tdev
      (r.1, cancelEvs ++ r.2 ++ [Event.usbOpen, Event.closeComplete none])
    else
      (tdev, cancelEvs)

/-- Outcome of an asynchronous `recv_ipc_msg` receive: either
`g_task_propagate_pointer` returned NULL with an error, or a well-formed
message with the given tag was delivered. -/
inductive RecvResult where
  | failure (e : ErrKind)
  | message (t : MsgType)
deriving DecidableEq, Repr

/-- `open_recv_cb`: on a receive error - reopen the USB device, dispose and
complete `open()` with that error; on a `READY` message - complete `open()`
with success and free the message; on any other tag - free the message,
reopen the USB device, dispose and complete `open()` with a protocol error.
`consumeMsg` marks `ipc_msg_buf_free` on a delivered message. -/
def open_recv_cb (tdev : FpiDeviceTudor) (res : RecvResult) :
    FpiDeviceTudor × List Event :=
  match res with
  | .failure e =>
      let r := dispose_dev tdev
      (r.1, Event.usbOpen :: r.2 ++ [Event.openComplete (some e)])
  | .message t =>
      match t with
      | .ready =>
          (tdev, [Event.openComplete none, Event.consumeMsg .ready])
      | t =>
          let r := dispose_dev tdev
          (r.1, Event.consumeMsg t :: Event.usbOpen :: r.2
                  ++ [Event.openComplete (some .protoErr)])

/-- Environment of one `fpi_device_tudor_open` call: whether the DBus
connection is obtained, whether `start_host_process` succeeds (carrying the
new host id), whether the socket wrap succeeds, and whether the INIT send
succeeds.

Modelled from the spec: `start_host_process` lives outside `src/`; per the
Process Monitor contract its success registers the new host id on the device
(`host_has_id := true`, `host_id := id`). -/
structure OpenEnv where
  dbus_ok : Bool
  spawned : Option Nat
  socket_ok : Bool
  send_ok : Bool
deriving DecidableEq, Repr

/-- `fpi_device_tudor_open`: acquire DBus, register the exit monitor, spawn
the host, wrap the socket, create the cancellable, dup the USB fd, close the
USB device, send INIT (closing the dup on success and on failure), and start
the asynchronous receive.  Every failure path disposes and completes
`open()` with the error; failure paths after the USB close also reopen the
USB device first. -/
def fpi_device_tudor_open (tdev : FpiDeviceTudor) (env : OpenEnv) :
    FpiDeviceTudor × List Event :=
  if env.dbus_ok then
    let tdev := { tdev with dbus_con := true, host_has_id := false }
    match env.spawned with
    | none =>
        let r := dispose_dev tdev
        (r.1, r.2 ++ [Event.openComplete (some .launchErr)])
    | some id =>
        let tdev := { tdev with host_has_id := true, host_id := id }
        if env.socket_ok then
          let tdev := { tdev with ipc_socket := true, ipc_cancel := true }
          if env.send_ok then
            ({ tdev with recv_pending := true },
             [Event.dupFd, Event.usbClose, Event.sendMsg .init, Event.closeFd,
              Event.recvStart])
          else
            let r := dispose_dev tdev
            (r.1, [Event.dupFd, Event.usbClose, Event.sendMsg .init,
                   Event.closeFd] ++ r.2
                    ++ [Event.usbOpen, Event.openComplete (some .transportErr)])
        else
          let r := dispose_dev tdev
          (r.1, r.2 ++ [Event.openComplete (some .transportErr)])
  else
    let r := dispose_dev tdev
    (r.1, r.2 ++ [Event.openComplete (some .dbusErr)])

/-- `close_timeout_cb`: if still `in_shutdown`, dispose, reopen the USB
device and complete `close()` with success; otherwise do nothing. -/
def close_timeout_cb (tdev : FpiDeviceTudor) : FpiDeviceTudor × List Event :=
  if tdev.in_shutdown then
    let r := dispose_dev tdev
    (r.1, r.2 ++ [Event.usbOpen, Event.closeComplete none])
  else
    (tdev, [])

/-- `fpi_device_tudor_close`: if the host is already dead, dispose, reopen
the USB device and complete `close()` with success immediately; otherwise
set `in_shutdown`, send SHUTDOWN (on send failure: dispose, reopen USB,
complete `close()` with the error) and arm the shutdown timeout. -/
def fpi_device_tudor_close (tdev : FpiDeviceTudor) (send_ok : Bool) :
    FpiDeviceTudor × List Event :=
  if tdev.host_dead then
    let r := dispose_dev tdev
    (r.1, r.2 ++ [Event.usbOpen, Event.closeComplete none])
  else
    let tdev := { tdev with in_shutdown := true }
    if send_ok then
      (tdev, [Event.sendMsg .shutdown, Event.armTimeout])
    else
      let r := dispose_dev tdev
      (r.1, Event.sendMsg .shutdown :: r.2
              ++ [Event.usbOpen, Event.closeComplete (some .transportErr)])

/-- Asynchronously delivered or caller-initiated events one execution can
see, serialized on the per-device main context. -/
inductive DevAction where
  | callOpen (env : OpenEnv)
  | recvComplete (res : RecvResult)
  | hostExit (id : Nat) (status : Int)
  | timeout
  | callClose (send_ok : Bool)
deriving DecidableEq, Repr

/-- One serialized delivery.  A `recvComplete` fires `open_recv_cb` only when
a receive is actually outstanding (a `GTask` completes its callback exactly
once per issued receive); otherwise nothing is delivered. -/
def step (tdev : FpiDeviceTudor) (a : DevAction) : FpiDeviceTudor × List Event :=
  match a with
  | .callOpen env => fpi_device_tudor_open tdev env
  | .recvComplete res =>
      if tdev.recv_pending then
        open_recv_cb { tdev with recv_pending := false } res
      else (tdev, [])
  | .hostExit id status => host_exit_cb tdev id status
  | .timeout => close_timeout_cb tdev
  | .callClose ok => fpi_device_tudor_close tdev ok

/-- Run a sequence of serialized deliveries, accumulating the event trace. -/
def run (tdev : FpiDeviceTudor) : List DevAction → FpiDeviceTudor × List Event
  | [] => (tdev, [])
  | a :: rest =>
      let r1 := step tdev a
      let r2 := run r1.1 rest
      (r2.1, r1.2 ++ r2.2)

/-- Fresh device state at driver probe time (all flags clear, no host). -/
def initState : FpiDeviceTudor :=
  { host_has_id := false, host_id := 0, host_dead := false,
    in_shutdown := false, ipc_cancel := false, ipc_socket := false,
    dbus_con := false, recv_pending := false }

/-- Recognizes the disposal marker event. -/
def Event.isDisposed : Event → Bool
  | .disposed => true
  | _ => false

/-- Recognizes any `open()` completion. -/
def Event.isOpenDone : Event → Bool
  | .openComplete _ => true
  | _ => false

/-- Recognizes any `close()` completion. -/
def Event.isCloseDone : Event → Bool
  | .closeComplete _ => true
  | _ => false

/-- Recognizes any operation completion. -/
def Event.isDone (e : Event) : Bool := e.isOpenDone || e.isCloseDone

/-- Recognizes a USB device reopen. -/
def Event.isUsbOpen : Event → Bool
  | .usbOpen => true
  | _ => false

/-- Recognizes the dup of the USB fd. -/
def Event.isDupFd : Event → Bool
  | .dupFd => true
  | _ => false

/-- Recognizes the close of the dup'd USB fd. -/
def Event.isCloseFd : Event → Bool
  | .closeFd => true
  | _ => false

/-- Recognizes the consumption (free) of a READY message. -/
def Event.isReadyConsumed : Event → Bool
  | .consumeMsg .ready => true
  | _ => false

/-- Number of events in a trace satisfying a predicate. -/
def countEvents (p : Event → Bool) (l : List Event) : Nat :=
  (l.filter p).length

/-- Projection of a trace to USB reopen events and operation completions,
in order; used to state "reopened exactly once, before completion". -/
def teardownView (l : List Event) : List Event :=
  l.filter fun e => e.isUsbOpen || e.isDone

/-- C9: running `dispose_dev` twice in succession is safe: the second run
returns the identical state (each owned reference was already cleared to
absent by the first run, so re-clearing releases nothing) and its only side
effect is the harmless best-effort kill call (plus the debug marker). -/
theorem dispose_dev_idempotent (tdev : FpiDeviceTudor) :
    dispose_dev (dispose_dev tdev).1
      = ((dispose_dev tdev).1,
         (if tdev.host_has_id then [Event.killHost tdev.host_id] else [])
           ++ [Event.disposed]) := by
  cases h : tdev.host_has_id <;> simp [dispose_dev, h]

/-- C10: after `dispose_dev` returns, `in_shutdown` is false and the
`ipc_cancel`, `ipc_socket` and `dbus_con` references are cleared; hence a
shutdown-timeout callback delivered after disposal leaves the state
unchanged and completes nothing. -/
theorem dispose_clears_state_timeout_noop (tdev : FpiDeviceTudor) :
    (dispose_dev tdev).1.in_shutdown = false ∧
    (dispose_dev tdev).1.ipc_cancel = false ∧
    (dispose_dev tdev).1.ipc_socket = false ∧
    (dispose_dev tdev).1.dbus_con = false ∧
    close_timeout_cb (dispose_dev tdev).1 = ((dispose_dev tdev).1, []) := by
  simp [dispose_dev, close_timeout_cb]

/-- C7: when `close()` is invoked with `host_dead` already true, no SHUTDOWN
message is sent and no timeout is armed; the device is disposed, the USB
device reopened, and `close()` completes with success immediately. -/
theorem close_on_dead_host (tdev : FpiDeviceTudor) (send_ok : Bool)
    (h : tdev.host_dead = true) :
    fpi_device_tudor_close tdev send_ok
        = ((dispose_dev tdev).1,
           (dispose_dev tdev).2 ++ [Event.usbOpen, Event.closeComplete none]) ∧
    (∀ t, Event.sendMsg t ∉ (fpi_device_tudor_close tdev send_ok).2) ∧
    Event.armTimeout ∉ (fpi_device_tudor_close tdev send_ok).2 ∧
    Event.disposed ∈ (fpi_device_tudor_close tdev send_ok).2 ∧
    Event.usbOpen ∈ (fpi_device_tudor_close tdev send_ok).2 ∧
    Event.closeComplete none ∈ (fpi_device_tudor_close tdev send_ok).2 := by
  obtain ⟨hhi, hid, hdead, hshut, hic, his, hdc, hrp⟩ := tdev
  simp only at h
  subst h
  cases hhi <;> cases hic <;> cases his <;> cases hdc <;>
    simp [fpi_device_tudor_close, dispose_dev]

/-- C7 witness: the dead-on-entry close at a concrete fully-open state. -/
theorem close_on_dead_host_witness :
    fpi_device_tudor_close ⟨true, 7, true, false, true, true, true, false⟩ true
        = ((dispose_dev ⟨true, 7, true, false, true, true, true, false⟩).1,
           (dispose_dev ⟨true, 7, true, false, true, true, true, false⟩).2
             ++ [Event.usbOpen, Event.closeComplete none]) :=
  (close_on_dead_host ⟨true, 7, true, false, true, true, true, false⟩ true rfl).1

/-- C8: in `open()`, once the INIT send is reached, the fd duplicated from
the USB device is closed exactly once on both exit paths of the send -
success and failure alike. -/
theorem init_fd_closed_exactly_once (tdev : FpiDeviceTudor) (id : Nat)
    (send_ok : Bool) :
    countEvents Event.isDupFd
        (fpi_device_tudor_open tdev ⟨true, some id, true, send_ok⟩).2 = 1 ∧
    countEvents Event.isCloseFd
        (fpi_device_tudor_open tdev ⟨true, some id, true, send_ok⟩).2 = 1 := by
  cases send_ok <;>
    simp [fpi_device_tudor_open, dispose_dev, countEvents,
          Event.isDupFd, Event.isCloseFd]

/-- C1: starting from any pre-shutdown state, deliver `close()` (SHUTDOWN
send succeeds), then the host-exit notification for the registered host id
while `in_shutdown` is true, then the shutdown timeout: `close()` completes
with success exactly once and disposal runs exactly once along the whole
execution (the late timeout observes `in_shutdown = false` and does
nothing). -/
theorem close_host_exit_then_timeout (tdev : FpiDeviceTudor) (status : Int)
    (h : tdev.host_dead = false) :
    (run tdev [DevAction.callClose true, DevAction.hostExit tdev.host_id status,
               DevAction.timeout]).2.filter Event.isCloseDone
        = [Event.closeComplete none] ∧
    countEvents Event.isDisposed
        (run tdev [DevAction.callClose true,
                   DevAction.hostExit tdev.host_id status,
                   DevAction.timeout]).2 = 1 := by
  obtain ⟨hhi, hid, hdead, hshut, hic, his, hdc, hrp⟩ := tdev
  simp only at h
  subst h
  cases hhi <;> cases hic <;> cases his <;> cases hdc <;>
    simp [run, step, fpi_device_tudor_close, host_exit_cb, close_timeout_cb,
          dispose_dev, countEvents, Event.isCloseDone, Event.isDisposed]

/-- C1 witness: the race resolution at a concrete fully-open state. -/
theorem close_host_exit_then_timeout_witness :
    (run ⟨true, 7, false, false, true, true, true, false⟩
        [DevAction.callClose true, DevAction.hostExit 7 0,
         DevAction.timeout]).2.filter Event.isCloseDone
      = [Event.closeComplete none] :=
  (close_host_exit_then_timeout ⟨true, 7, false, false, true, true, true, false⟩
    0 rfl).1

/-- C6: starting from any pre-shutdown state, deliver `close()` (SHUTDOWN
send succeeds) and then the shutdown timeout with the helper still alive:
`close()` completes with success (not an error) exactly once, and disposal
runs exactly once in that execution. -/
theorem close_timeout_completes_close (tdev : FpiDeviceTudor)
    (h : tdev.host_dead = false) :
    (run tdev [DevAction.callClose true, DevAction.timeout]).2.filter
        Event.isCloseDone = [Event.closeComplete none] ∧
    countEvents Event.isDisposed
        (run tdev [DevAction.callClose true, DevAction.timeout]).2 = 1 := by
  obtain ⟨hhi, hid, hdead, hshut, hic, his, hdc, hrp⟩ := tdev
  simp only at h
  subst h
  cases hhi <;> cases hic <;> cases his <;> cases hdc <;>
    simp [run, step, fpi_device_tudor_close, close_timeout_cb,
          dispose_dev, countEvents, Event.isCloseDone, Event.isDisposed]

/-- C6 witness: the timeout path at a concrete fully-open state. -/
theorem close_timeout_completes_close_witness :
    (run ⟨true, 7, false, false, true, true, true, false⟩
        [DevAction.callClose true, DevAction.timeout]).2.filter
        Event.isCloseDone = [Event.closeComplete none] :=
  (close_timeout_completes_close
    ⟨true, 7, false, false, true, true, true, false⟩ rfl).1

/-- C2: a full `open()` whose first inbound message is READY completes
`open()` with success exactly once and consumes exactly one READY message,
even if a further receive completion is delivered afterwards (no receive is
outstanding, so it is not delivered to the callback) and the host-exit
notification fires immediately after the READY completion. -/
theorem open_ready_single_completion (id : Nat) (r2 : RecvResult)
    (status : Int) :
    (run initState
        [DevAction.callOpen ⟨true, some id, true, true⟩,
         DevAction.recvComplete (RecvResult.message MsgType.ready),
         DevAction.recvComplete r2,
         DevAction.hostExit id status]).2.filter Event.isOpenDone
      = [Event.openComplete none] ∧
    countEvents Event.isReadyConsumed
      (run initState
        [DevAction.callOpen ⟨true, some id, true, true⟩,
         DevAction.recvComplete (RecvResult.message MsgType.ready),
         DevAction.recvComplete r2,
         DevAction.hostExit id status]).2 = 1 := by
  simp [run, step, initState, fpi_device_tudor_open, open_recv_cb,
        host_exit_cb, dispose_dev, countEvents, Event.isOpenDone,
        Event.isReadyConsumed]

/-- C3: a full `open()` whose first inbound message is well-formed but not
READY completes `open()` with a protocol error exactly once, reopens the
USB device, runs disposal once, and attempts the best-effort kill of the
registered host. -/
theorem open_non_ready_protocol_error (id : Nat) (t : MsgType)
    (h : t ≠ MsgType.ready) :
    (run initState
        [DevAction.callOpen ⟨true, some id, true, true⟩,
         DevAction.recvComplete (RecvResult.message t)]).2.filter
        Event.isOpenDone = [Event.openComplete (some ErrKind.protoErr)] ∧
    Event.usbOpen ∈ (run initState
        [DevAction.callOpen ⟨true, some id, true, true⟩,
         DevAction.recvComplete (RecvResult.message t)]).2 ∧
    countEvents Event.isDisposed (run initState
        [DevAction.callOpen ⟨true, some id, true, true⟩,
         DevAction.recvComplete (RecvResult.message t)]).2 = 1 ∧
    Event.killHost id ∈ (run initState
        [DevAction.callOpen ⟨true, some id, true, true⟩,
         DevAction.recvComplete (RecvResult.message t)]).2 := by
  cases t with
  | ready => exact absurd rfl h
  | _ =>
      simp [run, step, initState, fpi_device_tudor_open, open_recv_cb,
            dispose_dev, countEvents, Event.isOpenDone, Event.isDisposed]

/-- C3 witness: a concrete unexpected tag during the init sequence. -/
theorem open_non_ready_protocol_error_witness :
    (run initState
        [DevAction.callOpen ⟨true, some 9, true, true⟩,
         DevAction.recvComplete (RecvResult.message (MsgType.other 5))]).2.filter
        Event.isOpenDone = [Event.openComplete (some ErrKind.protoErr)] :=
  (open_non_ready_protocol_error 9 (MsgType.other 5) (by decide)).1

/-- C4: on every teardown path that starts after the USB handle has been
closed and handed to the helper - INIT-send failure, receive error,
non-READY message, host death while in shutdown, shutdown timeout, and the
dead-on-entry close - the trace restricted to USB reopens and operation
completions is exactly one `usbOpen` followed by exactly one completion:
the reopen happens exactly once, and before the completion. -/
theorem usb_reopened_once_on_teardown :
    (∀ tdev : FpiDeviceTudor, ∀ id : Nat,
       teardownView (fpi_device_tudor_open tdev ⟨true, some id, true, false⟩).2
         = [Event.usbOpen, Event.openComplete (some ErrKind.transportErr)]) ∧
    (∀ id : Nat, ∀ e : ErrKind,
       teardownView (run initState
           [DevAction.callOpen ⟨true, some id, true, true⟩,
            DevAction.recvComplete (RecvResult.failure e)]).2
         = [Event.usbOpen, Event.openComplete (some e)]) ∧
    (∀ id : Nat, ∀ t : MsgType, t ≠ MsgType.ready →
       teardownView (run initState
           [DevAction.callOpen ⟨true, some id, true, true⟩,
            DevAction.recvComplete (RecvResult.message t)]).2
         = [Event.usbOpen, Event.openComplete (some ErrKind.protoErr)]) ∧
    (∀ tdev : FpiDeviceTudor, ∀ status : Int, tdev.host_dead = false →
       teardownView (run tdev
           [DevAction.callClose true,
            DevAction.hostExit tdev.host_id status]).2
         = [Event.usbOpen, Event.closeComplete none]) ∧
    (∀ tdev : FpiDeviceTudor, tdev.host_dead = false →
       teardownView (run tdev [DevAction.callClose true, DevAction.timeout]).2
         = [Event.usbOpen, Event.closeComplete none]) ∧
    (∀ tdev : FpiDeviceTudor, ∀ send_ok : Bool, tdev.host_dead = true →
       teardownView (fpi_device_tudor_close tdev send_ok).2
         = [Event.usbOpen, Event.closeComplete none]) := by
  refine ⟨?_, ?_, ?_, ?_, ?_, ?_⟩
  · intro tdev id
    simp [fpi_device_tudor_open, dispose_dev, teardownView,
          Event.isUsbOpen, Event.isDone, Event.isOpenDone, Event.isCloseDone]
  · intro id e
    simp [run, step, initState, fpi_device_tudor_open, open_recv_cb,
          dispose_dev, teardownView, Event.isUsbOpen, Event.isDone,
          Event.isOpenDone, Event.isCloseDone]
  · intro id t h
    cases t with
    | ready => exact absurd rfl h
    | _ =>
        simp [run, step, initState, fpi_device_tudor_open, open_recv_cb,
              dispose_dev, teardownView, Event.isUsbOpen, Event.isDone,
              Event.isOpenDone, Event.isCloseDone]
  · intro tdev status h
    obtain ⟨hhi, hid, hdead, hshut, hic, his, hdc, hrp⟩ := tdev
    simp only at h
    subst h
    cases hhi <;> cases hic <;> cases his <;> cases hdc <;>
      simp [run, step, fpi_device_tudor_close, host_exit_cb, dispose_dev,
            teardownView, Event.isUsbOpen, Event.isDone, Event.isOpenDone,
            Event.isCloseDone]
  · intro tdev h
    obtain ⟨hhi, hid, hdead, hshut, hic, his, hdc, hrp⟩ := tdev
    simp only at h
    subst h
    cases hhi <;> cases hic <;> cases his <;> cases hdc <;>
      simp [run, step, fpi_device_tudor_close, close_timeout_cb, dispose_dev,
            teardownView, Event.isUsbOpen, Event.isDone, Event.isOpenDone,
            Event.isCloseDone]
  · intro tdev send_ok h
    obtain ⟨hhi, hid, hdead, hshut, hic, his, hdc, hrp⟩ := tdev
    simp only at h
    subst h
    cases hhi <;> cases hic <;> cases his <;> cases hdc <;>
      simp [fpi_device_tudor_close, dispose_dev, teardownView,
            Event.isUsbOpen, Event.isDone, Event.isOpenDone,
            Event.isCloseDone]

/-- C4 witness: all six teardown paths instantiated at concrete states. -/
theorem usb_reopened_once_on_teardown_witness :
    teardownView (fpi_device_tudor_open initState ⟨true, some 7, true, false⟩).2
        = [Event.usbOpen, Event.openComplete (some ErrKind.transportErr)] ∧
    teardownView (run initState
        [DevAction.callOpen ⟨true, some 7, true, true⟩,
         DevAction.recvComplete (RecvResult.failure ErrKind.cancelledErr)]).2
        = [Event.usbOpen, Event.openComplete (some ErrKind.cancelledErr)] ∧
    teardownView (run initState
        [DevAction.callOpen ⟨true, some 7, true, true⟩,
         DevAction.recvComplete (RecvResult.message (MsgType.other 5))]).2
        = [Event.usbOpen, Event.openComplete (some ErrKind.protoErr)] ∧
    teardownView (run ⟨true, 7, false, false, true, true, true, false⟩
        [DevAction.callClose true, DevAction.hostExit 7 0]).2
        = [Event.usbOpen, Event.closeComplete none] ∧
    teardownView (run ⟨true, 7, false, false, true, true, true, false⟩
        [DevAction.callClose true, DevAction.timeout]).2
        = [Event.usbOpen, Event.closeComplete none] ∧
    teardownView (fpi_device_tudor_close
        ⟨true, 7, true, false, true, true, true, false⟩ true).2
        = [Event.usbOpen, Event.closeComplete none] :=
  ⟨usb_reopened_once_on_teardown.1 initState 7,
   usb_reopened_once_on_teardown.2.1 7 ErrKind.cancelledErr,
   usb_reopened_once_on_teardown.2.2.1 7 (MsgType.other 5) (by decide),
   usb_reopened_once_on_teardown.2.2.2.1
     ⟨true, 7, false, false, true, true, true, false⟩ 0 rfl,
   usb_reopened_once_on_teardown.2.2.2.2.1
     ⟨true, 7, false, false, true, true, true, false⟩ rfl,
   usb_reopened_once_on_teardown.2.2.2.2.2
     ⟨true, 7, true, false, true, true, true, false⟩ true rfl⟩

/-- C5: full characterization of `host_exit_cb`.  It acts only when the
reported id equals the registered id and `host_dead` is still false (else
the state and trace are untouched); when it acts it sets `host_dead`,
cancels the IPC cancellable exactly when one is present, and disposes plus
completes `close()` with success if and only if `in_shutdown` is already
true - when not in shutdown the result is exactly the flag set and the
cancellation, with no disposal and no completion. -/
theorem host_exit_cb_spec (tdev : FpiDeviceTudor) (hid : Nat) (status : Int) :
    (tdev.host_dead = true ∨ tdev.host_id ≠ hid →
       host_exit_cb tdev hid status = (tdev, [])) ∧
    (tdev.host_dead = false → tdev.host_id = hid →
       (host_exit_cb tdev hid status).1.host_dead = true ∧
       (Event.cancelIpc tdev.host_id ∈ (host_exit_cb tdev hid status).2 ↔
          tdev.ipc_cancel = true) ∧
       (tdev.in_shutdown = true →
          countEvents Event.isDisposed (host_exit_cb tdev hid status).2 = 1 ∧
          (host_exit_cb tdev hid status).2.filter Event.isCloseDone
            = [Event.closeComplete none]) ∧
       (tdev.in_shutdown = false →
          host_exit_cb tdev hid status
            = ({ tdev with host_dead := true },
               if tdev.ipc_cancel then [Event.cancelIpc tdev.host_id]
               else []))) := by
  obtain ⟨hhi, hidf, hdead, hshut, hic, his, hdc, hrp⟩ := tdev
  constructor
  · intro h
    rcases h with h | h
    · simp only at h
      subst h
      simp [host_exit_cb]
    · simp only at h
      simp [host_exit_cb, bne_iff_ne, h]
  · intro h1 h2
    simp only at h1 h2
    subst h1
    subst h2
    cases hshut <;> cases hic <;> cases hhi <;> cases his <;> cases hdc <;>
      simp [host_exit_cb, dispose_dev, countEvents, Event.isDisposed,
            Event.isCloseDone]

/-- C5 witness: a stale notification is ignored, and a matching one outside
shutdown only marks the host dead and cancels IPC. -/
theorem host_exit_cb_spec_witness :
    host_exit_cb ⟨true, 7, true, false, true, true, true, false⟩ 7 0
        = (⟨true, 7, true, false, true, true, true, false⟩, []) ∧
    host_exit_cb ⟨true, 7, false, false, true, true, true, false⟩ 7 0
        = (⟨true, 7, true, false, true, true, true, false⟩,
           [Event.cancelIpc 7]) := by
  constructor
  · exact (host_exit_cb_spec ⟨true, 7, true, false, true, true, true, false⟩
      7 0).1 (Or.inl rfl)
  · have h := ((host_exit_cb_spec
      ⟨true, 7, false, false, true, true, true, false⟩ 7 0).2 rfl rfl).2.2.2 rfl
    simpa using h
